import Mathlib

/-!
Verification of the build-and-publish orchestrator of the handout service
(`app.py`): the per-job pipeline that generates, compiles and uploads the
scenario handouts for one identifier, reports progress through a mutable
status record, and the HTTP dispatch logic around it.

The embedding is shallow: external collaborators (the content store, the
generator/compiler subprocesses, the two readiness polls) are modelled as an
oracle environment `Env`; `build_and_publish` is rendered as a function from
that environment to the ordered trace of observable events (status-record
updates and collaborator invocations) plus the exit taken.  Real time in the
polling loops is idealised as advancing only by the fixed sleep interval, so a
loop with budget `maxSeconds` and interval `pollEvery` performs
`⌈maxSeconds / pollEvery⌉` queries.
-/

namespace HandoutApp

/-- Decidable equality for `Except`, used to evaluate oracle results. -/
instance {ε α : Type} [DecidableEq ε] [DecidableEq α] : DecidableEq (Except ε α) := fun a b =>
  match a, b with
  | .ok x, .ok y =>
    if h : x = y then .isTrue (by rw [h]) else .isFalse (by intro hh; cases hh; exact h rfl)
  | .error x, .error y =>
    if h : x = y then .isTrue (by rw [h]) else .isFalse (by intro hh; cases hh; exact h rfl)
  | .ok _, .error _ => .isFalse (by intro hh; cases hh)
  | .error _, .ok _ => .isFalse (by intro hh; cases hh)

/-! ## Status records and partial updates (`set_status` / `get_status`) -/

/-- A partial field update, as passed to `set_status(uuid, **fields)`.
`none` means the keyword was not passed; for the nullable fields `error` and
`pages_url`, `some none` means the field was explicitly set to `None`. -/
structure Upd where
  stage : Option String := none
  step : Option Nat := none
  total : Option Nat := none
  done : Option Bool := none
  error : Option (Option String) := none
  pages_url : Option (Option String) := none
deriving DecidableEq, Repr

/-- A job's status record: the dict stored in `STATUS[uuid]`.  A field is
`none` when the key is absent or set to `None` (both read back as `None`
through `dict.get`). -/
structure StatusRec where
  stage : Option String := none
  step : Option Nat := none
  total : Option Nat := none
  done : Option Bool := none
  error : Option String := none
  pages_url : Option String := none
deriving DecidableEq, Repr

/-- Merge one partial update into a record, as `set_status` does with
`s.update(fields)`. -/
def applyUpd (r : StatusRec) (u : Upd) : StatusRec :=
  { stage := match u.stage with | some v => some v | none => r.stage,
    step := match u.step with | some v => some v | none => r.step,
    total := match u.total with | some v => some v | none => r.total,
    done := match u.done with | some v => some v | none => r.done,
    error := match u.error with | some v => v | none => r.error,
    pages_url := match u.pages_url with | some v => v | none => r.pages_url }

/-- Fold a list of updates into a record: the record a poller observes after
that prefix of `set_status` calls. -/
def runUpds (init : StatusRec) (l : List Upd) : StatusRec :=
  l.foldl applyUpd init

/-! ## Configuration -/

/-- `SCENARIOS = [1, 2, 3, 4, 5]`. -/
def SCENARIOS : List Nat := [1, 2, 3, 4, 5]

/-- `total_steps = (len(SCENARIOS) * 3) + 4`. -/
def total_steps : Nat := SCENARIOS.length * 3 + 4

/-! ## Python exceptions reaching the pipeline's handlers -/

/-- The two handler classes in `build_and_publish`:
`subprocess.CalledProcessError` and every other `Exception`; the payload is
the exception's rendering `{e}`. -/
inductive PyExc where
  | calledProcessError (msg : String)
  | otherError (msg : String)
deriving DecidableEq, Repr

/-- The error string the handlers store: `f"Build error: {e}"` for
`CalledProcessError`, `f"Server error: {e}"` otherwise. -/
def excMessage : PyExc → String
  | .calledProcessError m => "Build error: " ++ m
  | .otherError m => "Server error: " ++ m

/-! ## Remote content client -/

/-- `uuid_folder_exists`: `gh_get(f"{uuid}").status_code == 200`, as a
function of the status code the contents read returned. -/
def uuid_folder_exists (status_code : Nat) : Bool :=
  status_code == 200

/-- A response to the contents pre-read in `upload_file`: its status code and
the result of `r.json().get("sha")` — `Except.error ()` when the body cannot
be parsed, `Except.ok none` when it parses but carries no `sha`. -/
structure GhResp where
  status_code : Nat
  jsonSha : Except Unit (Option String)
deriving DecidableEq, Repr

/-- The version token `upload_file` extracts before the write: only a 200
pre-read is consulted, and a parse failure falls back to `None`. -/
def upload_sha (r : GhResp) : Option String :=
  if r.status_code = 200 then
    match r.jsonSha with
    | .ok sha => sha
    | .error _ => none
  else none

/-- The `sha` field `gh_put` actually places in its payload: included only
when truthy (`if sha:`), so `None` and `""` both mean "create". -/
def putPayloadSha (sha : Option String) : Option String :=
  match sha with
  | some s => if s = "" then none else some s
  | none => none

/-- `gh_put`'s acceptance check: raise unless the write returned 200 or 201. -/
def gh_put (putStatus : Nat) : Except String Unit :=
  if putStatus = 200 ∨ putStatus = 201 then .ok ()
  else .error ("GitHub upload failed: " ++ toString putStatus)

/-- `upload_file`, as a function of the pre-read response and the write's
status code: the payload token it sends, and whether the write raised. -/
def upload_file (r : GhResp) (putStatus : Nat) : Option String × Except String Unit :=
  (putPayloadSha (upload_sha r), gh_put putStatus)

/-! ## Readiness waiter

Both loops poll under a deadline; time advances only in `time.sleep`, so the
number of loop iterations is `⌈maxSeconds / pollEvery⌉`.  A query is an
element of a stream indexed by iteration number; `Except.error ()` is a query
that raised (swallowed by the loop's `try`). -/

/-- Number of iterations of `while time.time() < deadline` when each
iteration sleeps `pollEvery` seconds. -/
def iterCount (maxSeconds pollEvery : Nat) : Nat :=
  (maxSeconds + pollEvery - 1) / pollEvery

/-- `last_status or "unknown"`: Python `or` treats `None` and `""` as falsy. -/
def orUnknown : Option String → String
  | none => "unknown"
  | some s => if s = "" then "unknown" else s

/-- The loop body of `wait_for_pages_build`: `q i` is the `i`-th
`get_latest_pages_build()` attempt — `Except.error ()` if it raised, else
`info.get("status")`. -/
def wait_build_aux (q : Nat → Except Unit (Option String)) :
    Nat → Nat → Option String → String
  | _, 0, last => orUnknown last
  | i, fuel + 1, last =>
    match q i with
    | .error _ => wait_build_aux q (i + 1) fuel last
    | .ok st =>
      match st with
      | some s =>
        if s = "built" ∨ s = "errored" then s
        else wait_build_aux q (i + 1) fuel (some s)
      | none => wait_build_aux q (i + 1) fuel none

/-- `wait_for_pages_build(max_seconds, poll_every)` over a query stream. -/
def wait_for_pages_build (maxSeconds pollEvery : Nat)
    (q : Nat → Except Unit (Option String)) : String :=
  wait_build_aux q 0 (iterCount maxSeconds pollEvery) none

/-- The value `last_status` holds after the first `fuel` queries: every
successful query overwrites it (even with an absent status), errors leave it. -/
def lastStatusSeen (q : Nat → Except Unit (Option String)) :
    Nat → Nat → Option String → Option String
  | _, 0, last => last
  | i, fuel + 1, last =>
    match q i with
    | .error _ => lastStatusSeen q (i + 1) fuel last
    | .ok st => lastStatusSeen q (i + 1) fuel st

/-- A build-status query outcome that does not meet the loop's terminal
condition `last_status in ("built", "errored")`. -/
def notTerm (r : Except Unit (Option String)) : Bool :=
  match r with
  | .ok (some s) => ¬(s = "built" ∨ s = "errored")
  | _ => true

/-- The loop body of `wait_for_url_200`: `q i` is the `i`-th HEAD attempt —
`Except.error ()` if it raised, else its status code. -/
def wait_url_aux (q : Nat → Except Unit Nat) : Nat → Nat → Bool
  | _, 0 => false
  | i, fuel + 1 =>
    match q i with
    | .error _ => wait_url_aux q (i + 1) fuel
    | .ok code => if code = 200 then true else wait_url_aux q (i + 1) fuel

/-- `wait_for_url_200(url, max_seconds, poll_every)` over a query stream. -/
def wait_for_url_200 (maxSeconds pollEvery : Nat)
    (q : Nat → Except Unit Nat) : Bool :=
  wait_url_aux q 0 (iterCount maxSeconds pollEvery)

/-- A HEAD outcome meeting the loop's success condition. -/
def isOk200 (r : Except Unit Nat) : Bool :=
  match r with
  | .ok code => code == 200
  | .error _ => false

/-! ## The pipeline (`build_and_publish`) -/

/-- Observable events of one pipeline run, in program order: status-record
updates and collaborator invocations. -/
inductive Event where
  | setStatus (u : Upd)
  | callExists
  | callGenerate (s : Nat)
  | callCompile (s : Nat)
  | callUpload (path : String)
  | callTrigger
  | callWaitBuild
  | callWaitUrl (url : String)
deriving DecidableEq, Repr

/-- The exit a run took. -/
inductive Outcome where
  | alreadyPublished
  | success
  | failed (msg : String)
deriving DecidableEq, Repr

/-- The oracle environment: what each external call would return for this
run.  `urlOk` is the boolean `wait_for_url_200` would return; the source
assigns it to `_ok` and never reads it. -/
structure Env where
  existsResp : Except PyExc Nat
  genRes : Nat → Except PyExc Unit
  compileRes : Nat → Except PyExc Unit
  uploadRes : Nat → Except PyExc Unit
  uploadIndexRes : Except PyExc Unit
  triggerRes : Except PyExc Unit
  buildStatus : String
  urlOk : Bool

/-- The run's opening update:
`set_status(uuid, stage="starting", step=0, total=total_steps, done=False, error=None)`. -/
def startingUpd : Upd :=
  { stage := some "starting", step := some 0, total := some total_steps,
    done := some false, error := some none }

/-- The update both exception handlers and the build-errored exit store:
`set_status(uuid, done=True, error=msg, pages_url=None)`. -/
def failUpd (msg : String) : Upd :=
  { done := some true, error := some (some msg), pages_url := some none }

/-- `f"{PAGES_BASE}/{uuid}/"`. -/
def pagesUrl (base uuid : String) : String :=
  base ++ "/" ++ uuid ++ "/"

/-- A plain stage-advance update: `set_status(uuid, stage=st, step=n)`. -/
def stageStepUpd (st : String) (n : Nat) : Upd :=
  { stage := some st, step := some n }

/-- The short-circuit's second update:
`set_status(uuid, done=True, pages_url=...)`. -/
def publishUpd (url : String) : Upd :=
  { done := some true, pages_url := some (some url) }

/-- The propagating-stage update, which already publishes the URL:
`set_status(uuid, stage="pages_propagating", step=step, pages_url=pages_url)`. -/
def propagatingUpd (url : String) (n : Nat) : Upd :=
  { stage := some "pages_propagating", step := some n, pages_url := some (some url) }

/-- The final success update:
`set_status(uuid, stage="done", step=total_steps, done=True, pages_url=pages_url, error=None)`. -/
def doneUpd (url : String) : Upd :=
  { stage := some "done", step := some total_steps, done := some true,
    pages_url := some (some url), error := some none }

/-- The generate/compile loop over the scenario list: the events it emits,
the step counter it leaves, and the exception that aborted it, if any.  Each
iteration publishes the stage before invoking the collaborator. -/
def genCompileLoop (env : Env) : Nat → List Nat → List Event × Nat × Option PyExc
  | step, [] => ([], step, none)
  | step, s :: rest =>
    let e1 : Event := .setStatus { stage := some ("generate_s" ++ toString s), step := some (step + 1) }
    match env.genRes s with
    | .error exc => ([e1, .callGenerate s], step + 1, some exc)
    | .ok _ =>
      let e2 : Event := .setStatus { stage := some ("compile_s" ++ toString s), step := some (step + 2) }
      match env.compileRes s with
      | .error exc => ([e1, .callGenerate s, e2, .callCompile s], step + 2, some exc)
      | .ok _ =>
        let r := genCompileLoop env (step + 2) rest
        ([e1, .callGenerate s, e2, .callCompile s] ++ r.1, r.2.1, r.2.2)

/-- The per-scenario upload loop, same shape. -/
def uploadLoop (env : Env) (uuid : String) : Nat → List Nat → List Event × Nat × Option PyExc
  | step, [] => ([], step, none)
  | step, s :: rest =>
    let path := uuid ++ "/mengm0056_s" ++ toString s ++ "_handout.pdf"
    let e1 : Event := .setStatus { stage := some ("upload_s" ++ toString s), step := some (step + 1) }
    match env.uploadRes s with
    | .error exc => ([e1, .callUpload path], step + 1, some exc)
    | .ok _ =>
      let r := uploadLoop env uuid (step + 1) rest
      ([e1, .callUpload path] ++ r.1, r.2.1, r.2.2)

/-- The body of `build_and_publish`'s `try`: events in program order, and
either the outcome of a normal exit or the exception that escaped. -/
def bapBody (base uuid : String) (env : Env) : List Event × Except PyExc Outcome :=
  let e0 : Event := .setStatus startingUpd
  match env.existsResp with
  | .error exc => ([e0, .callExists], .error exc)
  | .ok code =>
    if uuid_folder_exists code then
      ([e0, .callExists,
        .setStatus { stage := some "already_published", step := some (total_steps - 1) },
        .setStatus { done := some true, pages_url := some (some (pagesUrl base uuid)) }],
       .ok .alreadyPublished)
    else
      let g := genCompileLoop env 0 SCENARIOS
      let evs0 := [e0, .callExists] ++ g.1
      match g.2.2 with
      | some exc => (evs0, .error exc)
      | none =>
        let stepA := g.2.1 + 1
        let eIdx : Event := .setStatus { stage := some "write_index", step := some stepA }
        let u := uploadLoop env uuid stepA SCENARIOS
        let evs1 := evs0 ++ [eIdx] ++ u.1
        match u.2.2 with
        | some exc => (evs1, .error exc)
        | none =>
          let stepB := u.2.1 + 1
          let eUi : Event := .setStatus { stage := some "upload_index", step := some stepB }
          let evs2 := evs1 ++ [eUi, .callUpload (uuid ++ "/index.html")]
          match env.uploadIndexRes with
          | .error exc => (evs2, .error exc)
          | .ok _ =>
            let eTr : Event := .setStatus { stage := some "trigger_pages_build", step := some (stepB + 1) }
            let evs3 := evs2 ++ [eTr, .callTrigger]
            match env.triggerRes with
            | .error exc => (evs3, .error exc)
            | .ok _ =>
              let eBu : Event := .setStatus { stage := some "pages_building", step := some (stepB + 2) }
              let evs4 := evs3 ++ [eBu, .callWaitBuild]
              if env.buildStatus = "errored" then
                (evs4 ++ [.setStatus (failUpd "GitHub Pages build failed")],
                 .ok (.failed "GitHub Pages build failed"))
              else
                let url := pagesUrl base uuid
                let ePr : Event := .setStatus
                  { stage := some "pages_propagating", step := some (stepB + 3),
                    pages_url := some (some url) }
                let _ok := env.urlOk
                let evs5 := evs4 ++ [ePr, .callWaitUrl url]
                (evs5 ++ [.setStatus
                   { stage := some "done", step := some total_steps, done := some true,
                     pages_url := some (some url), error := some none }],
                 .ok .success)

/-- `build_and_publish`: the body wrapped in the two `except` handlers, which
publish the classified failure record. -/
def build_and_publish (base uuid : String) (env : Env) : List Event × Outcome :=
  let r := bapBody base uuid env
  match r.2 with
  | .ok o => (r.1, o)
  | .error exc =>
    (r.1 ++ [.setStatus (failUpd (excMessage exc))], .failed (excMessage exc))

/-- The sequence of `set_status` updates a run performs, in order. -/
def statusUpdates (evs : List Event) : List Upd :=
  evs.filterMap fun e =>
    match e with
    | .setStatus u => some u
    | _ => none

/-- Events that invoke the generation, compile or upload collaborators. -/
def isCollabCall (e : Event) : Bool :=
  match e with
  | .callGenerate _ => true
  | .callCompile _ => true
  | .callUpload _ => true
  | _ => false

/-! ## HTTP endpoints -/

/-- Characters Python's `str.strip()` removes. -/
def pyWhitespace (c : Char) : Bool :=
  c = ' ' || c = '\t' || c = '\n' || c = '\r' || c = '\x0b' || c = '\x0c'

/-- Python `str.strip()`. -/
def pyStrip (s : String) : String :=
  String.mk (((s.data.dropWhile pyWhitespace).reverse.dropWhile pyWhitespace).reverse)

/-- A character of the class `[0-9a-fA-F-]`. -/
def hexDashChar (c : Char) : Bool :=
  ('0' ≤ c && c ≤ '9') || ('a' ≤ c && c ≤ 'f') || ('A' ≤ c && c ≤ 'F') || c = '-'

/-- `re.fullmatch(r"[0-9a-fA-F-]{16,}", uuid)` as a predicate. -/
def valid_uuid (s : String) : Bool :=
  decide (16 ≤ s.length) && s.data.all hexDashChar

/-- Python truthiness of the stored `pages_url` (`not s.get("pages_url")`
is true when the key is absent, `None`, or the empty string). -/
def urlFalsy : Option String → Bool
  | none => true
  | some u => u == ""

/-- The dispatcher's spawn condition:
`not s or (s.get("done") and not s.get("pages_url"))` where the absent record
reads as the (falsy) empty dict. -/
def startSpawns (store : Option StatusRec) : Bool :=
  match store with
  | none => true
  | some r => r.done.getD false && urlFalsy r.pages_url

/-- The reset the dispatcher performs before spawning:
`set_status(uuid, stage="queued", step=0, total=total_steps, done=False, error=None)`. -/
def queuedUpd : Upd :=
  { stage := some "queued", step := some 0, total := some total_steps,
    done := some false, error := some none }

/-- What a `/start` request does: reject the identifier, spawn a fresh run
with the reset record, or merely serve the waiting page. -/
inductive StartResult where
  | badRequest (msg : String)
  | spawn (newRec : StatusRec)
  | noSpawn
deriving DecidableEq, Repr

/-- The `/start` handler: strip, validate, then check-and-spawn. The spawned
constructor carries the record as reset by `queuedUpd` immediately before the
pipeline thread is started. -/
def start (arg : Option String) (store : Option StatusRec) : StartResult :=
  let uuid := pyStrip (arg.getD "")
  if uuid = "" ∨ valid_uuid uuid = false then .badRequest "Missing/invalid uuid"
  else if startSpawns store then .spawn (applyUpd (store.getD {}) queuedUpd)
  else .noSpawn

/-- A response of the legacy `/generate` handler. -/
inductive HttpResp where
  | badRequest (msg : String)
  | redirect (code : Nat) (location : String)
deriving DecidableEq, Repr

/-- The `/generate` handler: strip, 400 on empty, else an unencoded 302 to
`/start`. -/
def generate_legacy (arg : Option String) : HttpResp :=
  let uuid := pyStrip (arg.getD "")
  if uuid = "" then .badRequest "Missing uuid"
  else .redirect 302 ("/start?uuid=" ++ uuid)

/-! ## Concrete environments used in the evaluations below -/

/-- Folder absent (read returns 404), every collaborator succeeds, the remote
build reports `built`. -/
def allOkEnv : Env :=
  { existsResp := .ok 404,
    genRes := fun _ => .ok (),
    compileRes := fun _ => .ok (),
    uploadRes := fun _ => .ok (),
    uploadIndexRes := .ok (),
    triggerRes := .ok (),
    buildStatus := "built",
    urlOk := true }

/-- Folder already present: the pre-read returns 200. -/
def existsEnv : Env :=
  { allOkEnv with existsResp := .ok 200 }

/-- Compile of scenario 3 exits non-zero; everything before succeeds. -/
def compileFailEnv : Env :=
  { allOkEnv with
    compileRes := fun s => if s = 3 then .error (.calledProcessError "exit 1") else .ok () }

/-- The pre-rebuild existence read comes back 503 (rate-limited / error). -/
def env503 : Env :=
  { allOkEnv with existsResp := .ok 503 }

/-- A terminal failed record, as left by a prior errored run. -/
def failedRec : StatusRec :=
  { stage := some "compile_s3", step := some 6, total := some total_steps,
    done := some true, error := some "Build error: exit 1", pages_url := none }

/-- Consistency of a stored record: when terminal, the `pages_url` field is
falsy exactly when an error is recorded.  Every record this system stores
satisfies it: the failure updates set `error` together with `pages_url=None`,
and both success exits set a nonempty `pages_url` with `error` previously
reset to `None`. -/
def recordConsistent : Option StatusRec → Prop
  | none => True
  | some r => r.done = some true → (urlFalsy r.pages_url = true ↔ r.error ≠ none)

/-- A build-status query stream: the first poll raises, later polls see a
build still in progress. -/
def wStreamB : Nat → Except Unit (Option String) :=
  fun i => if i = 0 then .error () else .ok (some "building")

/-- A HEAD query stream: the first poll raises, later polls return 200. -/
def wStreamU : Nat → Except Unit Nat :=
  fun i => if i = 0 then .error () else .ok 200

/-! ## Helper lemmas -/

theorem statusUpdates_append (l1 l2 : List Event) :
    statusUpdates (l1 ++ l2) = statusUpdates l1 ++ statusUpdates l2 := by
  simp [statusUpdates]

theorem runUpds_append (init : StatusRec) (l1 l2 : List Upd) :
    runUpds init (l1 ++ l2) = runUpds (runUpds init l1) l2 := by
  simp [runUpds, List.foldl_append]

theorem runUpds_concat (init : StatusRec) (l : List Upd) (u : Upd) :
    runUpds init (l ++ [u]) = applyUpd (runUpds init l) u := by
  simp [runUpds, List.foldl_append]

theorem excMessage_ne_empty (e : PyExc) : excMessage e ≠ "" := by
  cases e with
  | calledProcessError m =>
    intro h
    have h' := congrArg String.length h
    simp [excMessage, String.length_append] at h'
    exact absurd h'.1 (by decide)
  | otherError m =>
    intro h
    have h' := congrArg String.length h
    simp [excMessage, String.length_append] at h'
    exact absurd h'.1 (by decide)

/-- The wrapper only ever appends the handler's update to the body's trace. -/
theorem bap_events_split (base uuid : String) (env : Env) :
    ∃ tail, (build_and_publish base uuid env).1 = (bapBody base uuid env).1 ++ tail := by
  unfold build_and_publish
  rcases h : (bapBody base uuid env).2 with exc | o <;> simp [h]

/-- Every run of `build_and_publish` takes exactly one of its eight exit
paths; each disjunct records the oracle results that select the path and the
full event trace and outcome it produces. -/
theorem bap_cases (base uuid : String) (env : Env) :
    (∃ exc, env.existsResp = .error exc ∧
      build_and_publish base uuid env =
        ([.setStatus startingUpd, .callExists, .setStatus (failUpd (excMessage exc))],
         .failed (excMessage exc))) ∨
    (∃ code, env.existsResp = .ok code ∧ uuid_folder_exists code = true ∧
      build_and_publish base uuid env =
        ([.setStatus startingUpd, .callExists,
          .setStatus (stageStepUpd "already_published" (total_steps - 1)),
          .setStatus (publishUpd (pagesUrl base uuid))],
         .alreadyPublished)) ∨
    (∃ code gevs gstep exc, env.existsResp = .ok code ∧ uuid_folder_exists code = false ∧
      genCompileLoop env 0 SCENARIOS = (gevs, gstep, some exc) ∧
      build_and_publish base uuid env =
        ([.setStatus startingUpd, .callExists] ++ gevs ++
           [.setStatus (failUpd (excMessage exc))],
         .failed (excMessage exc))) ∨
    (∃ code gevs gstep uevs ustep exc,
      env.existsResp = .ok code ∧ uuid_folder_exists code = false ∧
      genCompileLoop env 0 SCENARIOS = (gevs, gstep, none) ∧
      uploadLoop env uuid (gstep + 1) SCENARIOS = (uevs, ustep, some exc) ∧
      build_and_publish base uuid env =
        ([.setStatus startingUpd, .callExists] ++ gevs ++
           [.setStatus (stageStepUpd "write_index" (gstep + 1))] ++ uevs ++
           [.setStatus (failUpd (excMessage exc))],
         .failed (excMessage exc))) ∨
    (∃ code gevs gstep uevs ustep exc,
      env.existsResp = .ok code ∧ uuid_folder_exists code = false ∧
      genCompileLoop env 0 SCENARIOS = (gevs, gstep, none) ∧
      uploadLoop env uuid (gstep + 1) SCENARIOS = (uevs, ustep, none) ∧
      env.uploadIndexRes = .error exc ∧
      build_and_publish base uuid env =
        ([.setStatus startingUpd, .callExists] ++ gevs ++
           [.setStatus (stageStepUpd "write_index" (gstep + 1))] ++ uevs ++
           [.setStatus (stageStepUpd "upload_index" (ustep + 1)),
            .callUpload (uuid ++ "/index.html"),
            .setStatus (failUpd (excMessage exc))],
         .failed (excMessage exc))) ∨
    (∃ code gevs gstep uevs ustep exc,
      env.existsResp = .ok code ∧ uuid_folder_exists code = false ∧
      genCompileLoop env 0 SCENARIOS = (gevs, gstep, none) ∧
      uploadLoop env uuid (gstep + 1) SCENARIOS = (uevs, ustep, none) ∧
      env.uploadIndexRes = .ok () ∧ env.triggerRes = .error exc ∧
      build_and_publish base uuid env =
        ([.setStatus startingUpd, .callExists] ++ gevs ++
           [.setStatus (stageStepUpd "write_index" (gstep + 1))] ++ uevs ++
           [.setStatus (stageStepUpd "upload_index" (ustep + 1)),
            .callUpload (uuid ++ "/index.html"),
            .setStatus (stageStepUpd "trigger_pages_build" (ustep + 1 + 1)),
            .callTrigger,
            .setStatus (failUpd (excMessage exc))],
         .failed (excMessage exc))) ∨
    (∃ code gevs gstep uevs ustep,
      env.existsResp = .ok code ∧ uuid_folder_exists code = false ∧
      genCompileLoop env 0 SCENARIOS = (gevs, gstep, none) ∧
      uploadLoop env uuid (gstep + 1) SCENARIOS = (uevs, ustep, none) ∧
      env.uploadIndexRes = .ok () ∧ env.triggerRes = .ok () ∧
      env.buildStatus = "errored" ∧
      build_and_publish base uuid env =
        ([.setStatus startingUpd, .callExists] ++ gevs ++
           [.setStatus (stageStepUpd "write_index" (gstep + 1))] ++ uevs ++
           [.setStatus (stageStepUpd "upload_index" (ustep + 1)),
            .callUpload (uuid ++ "/index.html"),
            .setStatus (stageStepUpd "trigger_pages_build" (ustep + 1 + 1)),
            .callTrigger,
            .setStatus (stageStepUpd "pages_building" (ustep + 1 + 2)),
            .callWaitBuild,
            .setStatus (failUpd "GitHub Pages build failed")],
         .failed "GitHub Pages build failed")) ∨
    (∃ code gevs gstep uevs ustep,
      env.existsResp = .ok code ∧ uuid_folder_exists code = false ∧
      genCompileLoop env 0 SCENARIOS = (gevs, gstep, none) ∧
      uploadLoop env uuid (gstep + 1) SCENARIOS = (uevs, ustep, none) ∧
      env.uploadIndexRes = .ok () ∧ env.triggerRes = .ok () ∧
      ¬(env.buildStatus = "errored") ∧
      build_and_publish base uuid env =
        ([.setStatus startingUpd, .callExists] ++ gevs ++
           [.setStatus (stageStepUpd "write_index" (gstep + 1))] ++ uevs ++
           [.setStatus (stageStepUpd "upload_index" (ustep + 1)),
            .callUpload (uuid ++ "/index.html"),
            .setStatus (stageStepUpd "trigger_pages_build" (ustep + 1 + 1)),
            .callTrigger,
            .setStatus (stageStepUpd "pages_building" (ustep + 1 + 2)),
            .callWaitBuild,
            .setStatus (propagatingUpd (pagesUrl base uuid) (ustep + 1 + 3)),
            .callWaitUrl (pagesUrl base uuid),
            .setStatus (doneUpd (pagesUrl base uuid))],
         .success)) := by
  rcases hex : env.existsResp with exc | code
  · exact Or.inl ⟨exc, rfl, by
      simp [build_and_publish, bapBody, hex]⟩
  · rcases hx : uuid_folder_exists code with _ | _
    · rcases hg : genCompileLoop env 0 SCENARIOS with ⟨gevs, gstep, gexc⟩
      rcases gexc with _ | gexc
      · rcases hu : uploadLoop env uuid (gstep + 1) SCENARIOS with ⟨uevs, ustep, uexc⟩
        rcases uexc with _ | uexc
        · rcases hui : env.uploadIndexRes with iexc | iu
          · refine Or.inr (Or.inr (Or.inr (Or.inr (Or.inl
              ⟨code, gevs, gstep, uevs, ustep, iexc, rfl, hx, rfl, hu, rfl, ?_⟩))))
            simp [build_and_publish, bapBody, hex, hx, hg, hu, hui, stageStepUpd]
          · cases iu
            rcases htr : env.triggerRes with texc | tu
            · refine Or.inr (Or.inr (Or.inr (Or.inr (Or.inr (Or.inl
                ⟨code, gevs, gstep, uevs, ustep, texc, rfl, hx, rfl, hu, rfl, rfl, ?_⟩)))))
              simp [build_and_publish, bapBody, hex, hx, hg, hu, hui, htr, stageStepUpd]
            · cases tu
              by_cases hbe : env.buildStatus = "errored"
              · refine Or.inr (Or.inr (Or.inr (Or.inr (Or.inr (Or.inr (Or.inl
                  ⟨code, gevs, gstep, uevs, ustep, rfl, hx, rfl, hu, rfl, rfl, hbe, ?_⟩))))))
                simp [build_and_publish, bapBody, hex, hx, hg, hu, hui, htr, hbe, stageStepUpd]
              · refine Or.inr (Or.inr (Or.inr (Or.inr (Or.inr (Or.inr (Or.inr
                  ⟨code, gevs, gstep, uevs, ustep, rfl, hx, rfl, hu, rfl, rfl, hbe, ?_⟩))))))
                simp [build_and_publish, bapBody, hex, hx, hg, hu, hui, htr, hbe,
                      stageStepUpd, propagatingUpd, doneUpd]
        · refine Or.inr (Or.inr (Or.inr (Or.inl
            ⟨code, gevs, gstep, uevs, ustep, uexc, rfl, hx, rfl, hu, ?_⟩)))
          simp [build_and_publish, bapBody, hex, hx, hg, hu, stageStepUpd]
      · refine Or.inr (Or.inr (Or.inl ⟨code, gevs, gstep, gexc, rfl, hx, rfl, ?_⟩))
        simp [build_and_publish, bapBody, hex, hx, hg]
    · exact Or.inr (Or.inl ⟨code, rfl, hx, by
        simp [build_and_publish, bapBody, hex, hx, stageStepUpd, publishUpd]⟩)

/-- The pipeline never reads the propagation wait's boolean result. -/
theorem bap_urlOk_irrel (base uuid : String) (env : Env) (b : Bool) :
    build_and_publish base uuid { env with urlOk := b } = build_and_publish base uuid env := rfl

/-- Claim C1 (evaluation of the code at the failing input): on a fully
successful run the stored `step` sequence reaches 20 at stage
`pages_propagating` although the stored `total` is 19, and then decreases
back to 19 at the final update — the step counter is neither bounded by
`total` nor non-decreasing.  The code advances `step` 20 times while the
comment computing `total_steps` counts only 19 stages. -/
theorem step_exceeds_total_on_success_path :
    (statusUpdates (build_and_publish "b" "u" allOkEnv).1).filterMap Upd.step =
      [0, 1, 2, 3, 4, 5, 6, 7, 8, 9, 10, 11, 12, 13, 14, 15, 16, 17, 18, 19, 20, 19] ∧
    total_steps = 19 ∧
    (runUpds {} ((statusUpdates (build_and_publish "b" "u" allOkEnv).1).take 21)).step = some 20 ∧
    (runUpds {} ((statusUpdates (build_and_publish "b" "u" allOkEnv).1).take 21)).total = some 19 ∧
    (runUpds {} (statusUpdates (build_and_publish "b" "u" allOkEnv).1)).step = some 19 := by
  decide

/-- Claim C2 (counterexample): on the short-circuit path the run initialises
`step` to 0 and then stores `step = 18 = total_steps - 1`, so the final
`step` is not "unchanged from its initialization value". -/
theorem already_published_step_jump :
    (statusUpdates (build_and_publish "b" "u" existsEnv).1).take 1 = [startingUpd] ∧
    startingUpd.step = some 0 ∧
    (runUpds {} (statusUpdates (build_and_publish "b" "u" existsEnv).1)).step = some 18 ∧
    (18 : Nat) ≠ 0 := by
  decide

/-- Claim C2 (amended): for an identifier whose folder already exists
remotely, the run invokes no generation/compile/upload collaborator and
terminates immediately with `done = true`, `error = null` and `pages_url`
set — but with `step` set to `total_steps - 1`, not left at its
initialization value. -/
theorem short_circuit_behavior (base uuid : String) (env : Env) (init : StatusRec) (code : Nat)
    (hex : env.existsResp = .ok code) (hx : uuid_folder_exists code = true) :
    (build_and_publish base uuid env).2 = .alreadyPublished ∧
    (build_and_publish base uuid env).1.filter isCollabCall = [] ∧
    (runUpds init (statusUpdates (build_and_publish base uuid env).1)).done = some true ∧
    (runUpds init (statusUpdates (build_and_publish base uuid env).1)).error = none ∧
    (runUpds init (statusUpdates (build_and_publish base uuid env).1)).pages_url =
      some (pagesUrl base uuid) ∧
    (runUpds init (statusUpdates (build_and_publish base uuid env).1)).step =
      some (total_steps - 1) := by
  have hbap : build_and_publish base uuid env =
      ([.setStatus startingUpd, .callExists,
        .setStatus (stageStepUpd "already_published" (total_steps - 1)),
        .setStatus (publishUpd (pagesUrl base uuid))], .alreadyPublished) := by
    simp [build_and_publish, bapBody, hex, hx, stageStepUpd, publishUpd]
  rw [hbap]
  refine ⟨rfl, rfl, ?_, ?_, ?_, ?_⟩ <;>
    simp [statusUpdates, runUpds, applyUpd, startingUpd, stageStepUpd, publishUpd]

/-- Witness for `short_circuit_behavior` at a concrete environment. -/
theorem short_circuit_behavior_witness :
    (build_and_publish "b" "u" existsEnv).1.filter isCollabCall = [] ∧
    (build_and_publish "b" "u" existsEnv).2 = .alreadyPublished :=
  ⟨(short_circuit_behavior "b" "u" existsEnv {} 200 rfl rfl).2.1,
   (short_circuit_behavior "b" "u" existsEnv {} 200 rfl rfl).1⟩

/-- Claim C4: whenever a run exits with a failure — a collaborator raising,
an upload or trigger rejection, the remote build reporting `errored`, or any
other exception — the published record has `done = true`, a non-empty error
string, and `pages_url = null`. -/
theorem failure_record_shape (base uuid : String) (env : Env) (init : StatusRec) (msg : String)
    (h : (build_and_publish base uuid env).2 = .failed msg) :
    (runUpds init (statusUpdates (build_and_publish base uuid env).1)).done = some true ∧
    (runUpds init (statusUpdates (build_and_publish base uuid env).1)).error = some msg ∧
    msg ≠ "" ∧
    (runUpds init (statusUpdates (build_and_publish base uuid env).1)).pages_url = none := by
  rcases bap_cases base uuid env with
      ⟨exc, hex, hbap⟩ | ⟨code, hex, hx, hbap⟩ |
      ⟨code, gevs, gstep, exc, hex, hx, hg, hbap⟩ |
      ⟨code, gevs, gstep, uevs, ustep, exc, hex, hx, hg, hu, hbap⟩ |
      ⟨code, gevs, gstep, uevs, ustep, exc, hex, hx, hg, hu, hui, hbap⟩ |
      ⟨code, gevs, gstep, uevs, ustep, exc, hex, hx, hg, hu, hui, htr, hbap⟩ |
      ⟨code, gevs, gstep, uevs, ustep, hex, hx, hg, hu, hui, htr, hbe, hbap⟩ |
      ⟨code, gevs, gstep, uevs, ustep, hex, hx, hg, hu, hui, htr, hbe, hbap⟩ <;>
    rw [hbap] at h ⊢
  · simp only [Outcome.failed.injEq] at h
    subst h
    refine ⟨?_, ?_, excMessage_ne_empty exc, ?_⟩ <;>
      simp [statusUpdates, runUpds, applyUpd, failUpd, startingUpd]
  · simp at h
  · simp only [Outcome.failed.injEq] at h
    subst h
    refine ⟨?_, ?_, excMessage_ne_empty exc, ?_⟩ <;>
      simp [statusUpdates, runUpds, applyUpd, failUpd, startingUpd, stageStepUpd,
            List.filterMap_append, List.foldl_append]
  · simp only [Outcome.failed.injEq] at h
    subst h
    refine ⟨?_, ?_, excMessage_ne_empty exc, ?_⟩ <;>
      simp [statusUpdates, runUpds, applyUpd, failUpd, startingUpd, stageStepUpd,
            List.filterMap_append, List.foldl_append]
  · simp only [Outcome.failed.injEq] at h
    subst h
    refine ⟨?_, ?_, excMessage_ne_empty exc, ?_⟩ <;>
      simp [statusUpdates, runUpds, applyUpd, failUpd, startingUpd, stageStepUpd,
            List.filterMap_append, List.foldl_append]
  · simp only [Outcome.failed.injEq] at h
    subst h
    refine ⟨?_, ?_, excMessage_ne_empty exc, ?_⟩ <;>
      simp [statusUpdates, runUpds, applyUpd, failUpd, startingUpd, stageStepUpd,
            List.filterMap_append, List.foldl_append]
  · simp only [Outcome.failed.injEq] at h
    subst h
    refine ⟨?_, ?_, by decide, ?_⟩ <;>
      simp [statusUpdates, runUpds, applyUpd, failUpd, startingUpd, stageStepUpd,
            List.filterMap_append, List.foldl_append]
  · simp at h

/-- Witness for `failure_record_shape`: compile of scenario 3 fails. -/
theorem failure_record_shape_witness :
    (build_and_publish "b" "u" compileFailEnv).2 = .failed "Build error: exit 1" ∧
    (runUpds {} (statusUpdates (build_and_publish "b" "u" compileFailEnv).1)).error =
      some "Build error: exit 1" ∧
    (runUpds {} (statusUpdates (build_and_publish "b" "u" compileFailEnv).1)).pages_url = none :=
  ⟨by decide,
   (failure_record_shape "b" "u" compileFailEnv {} "Build error: exit 1" (by decide)).2.1,
   (failure_record_shape "b" "u" compileFailEnv {} "Build error: exit 1" (by decide)).2.2.2⟩

/-- Claim C5: a run that reaches the propagation stage publishes `pages_url`
in the `pages_propagating` update, which precedes the `waitForUrl` call in
the trace; the wait's boolean result is never read (the trace and outcome are
invariant in it); and the run still terminates with `done = true`,
`error = null` and `pages_url` set even when the wait would return `false`. -/
theorem propagation_wait_best_effort (base uuid : String) (env : Env) (init : StatusRec)
    (h : (build_and_publish base uuid env).2 = .success) :
    (∃ pre n, (build_and_publish base uuid env).1 =
        pre ++ [.setStatus (propagatingUpd (pagesUrl base uuid) n),
                .callWaitUrl (pagesUrl base uuid),
                .setStatus (doneUpd (pagesUrl base uuid))]) ∧
    (∀ b, build_and_publish base uuid { env with urlOk := b } = build_and_publish base uuid env) ∧
    (runUpds init (statusUpdates (build_and_publish base uuid env).1)).done = some true ∧
    (runUpds init (statusUpdates (build_and_publish base uuid env).1)).error = none ∧
    (runUpds init (statusUpdates (build_and_publish base uuid env).1)).pages_url =
      some (pagesUrl base uuid) := by
  have hirr : ∀ b, build_and_publish base uuid { env with urlOk := b } =
      build_and_publish base uuid env := fun b => bap_urlOk_irrel base uuid env b
  rcases bap_cases base uuid env with
      ⟨exc, hex, hbap⟩ | ⟨code, hex, hx, hbap⟩ |
      ⟨code, gevs, gstep, exc, hex, hx, hg, hbap⟩ |
      ⟨code, gevs, gstep, uevs, ustep, exc, hex, hx, hg, hu, hbap⟩ |
      ⟨code, gevs, gstep, uevs, ustep, exc, hex, hx, hg, hu, hui, hbap⟩ |
      ⟨code, gevs, gstep, uevs, ustep, exc, hex, hx, hg, hu, hui, htr, hbap⟩ |
      ⟨code, gevs, gstep, uevs, ustep, hex, hx, hg, hu, hui, htr, hbe, hbap⟩ |
      ⟨code, gevs, gstep, uevs, ustep, hex, hx, hg, hu, hui, htr, hbe, hbap⟩ <;>
    rw [hbap] at h <;> try simp at h
  refine ⟨⟨[Event.setStatus startingUpd, Event.callExists] ++ gevs ++
      [Event.setStatus (stageStepUpd "write_index" (gstep + 1))] ++ uevs ++
      [Event.setStatus (stageStepUpd "upload_index" (ustep + 1)),
       Event.callUpload (uuid ++ "/index.html"),
       Event.setStatus (stageStepUpd "trigger_pages_build" (ustep + 1 + 1)),
       Event.callTrigger,
       Event.setStatus (stageStepUpd "pages_building" (ustep + 1 + 2)),
       Event.callWaitBuild],
      ustep + 1 + 3, by rw [hbap]; simp⟩,
    fun b => (hirr b).trans rfl, ?_, ?_, ?_⟩ <;>
    rw [hbap] <;>
    simp [statusUpdates, runUpds, applyUpd, doneUpd, propagatingUpd, startingUpd,
          stageStepUpd, List.filterMap_append, List.foldl_append]

/-- Witness for `propagation_wait_best_effort`: the wait times out (returns
`false`) and the record still shows success. -/
theorem propagation_wait_best_effort_witness :
    (build_and_publish "b" "u" { allOkEnv with urlOk := false }).2 = .success ∧
    (runUpds {} (statusUpdates
      (build_and_publish "b" "u" { allOkEnv with urlOk := false }).1)).error = none ∧
    (runUpds {} (statusUpdates
      (build_and_publish "b" "u" { allOkEnv with urlOk := false }).1)).pages_url =
      some (pagesUrl "b" "u") :=
  ⟨by decide,
   (propagation_wait_best_effort "b" "u" { allOkEnv with urlOk := false } {} (by decide)).2.2.2.1,
   (propagation_wait_best_effort "b" "u" { allOkEnv with urlOk := false } {} (by decide)).2.2.2.2⟩

/-- Claim C7: with the folder absent and all five generations, compilations
and uploads succeeding, the trigger accepted and the build reported `built`,
the run fixes `total = 3 * 5 + 4 = 19` in its first update and the final
record is exactly `stage="done", step=19, total=19, done=true, error=null,
pages_url=<base>/<uuid>/`. -/
theorem full_success_scenario (base uuid : String) (env : Env) (init : StatusRec) (code : Nat)
    (hex : env.existsResp = .ok code) (hx : uuid_folder_exists code = false)
    (hgen : ∀ s, env.genRes s = .ok ()) (hcomp : ∀ s, env.compileRes s = .ok ())
    (hup : ∀ s, env.uploadRes s = .ok ()) (hui : env.uploadIndexRes = .ok ())
    (htr : env.triggerRes = .ok ()) (hbs : env.buildStatus = "built") :
    total_steps = 19 ∧
    (statusUpdates (build_and_publish base uuid env).1).head? = some startingUpd ∧
    runUpds init (statusUpdates (build_and_publish base uuid env).1) =
      { stage := some "done", step := some 19, total := some 19, done := some true,
        error := none, pages_url := some (pagesUrl base uuid) } := by
  refine ⟨rfl, ?_, ?_⟩ <;>
    simp [build_and_publish, bapBody, genCompileLoop, uploadLoop, SCENARIOS,
          hex, hx, hgen, hcomp, hup, hui, htr, hbs, statusUpdates, runUpds, applyUpd,
          startingUpd, total_steps]

/-- Witness for `full_success_scenario` at a concrete environment. -/
theorem full_success_scenario_witness :
    runUpds {} (statusUpdates (build_and_publish "https://ex" "abc123-missing" allOkEnv).1) =
      { stage := some "done", step := some 19, total := some 19, done := some true,
        error := none, pages_url := some (pagesUrl "https://ex" "abc123-missing") } :=
  (full_success_scenario "https://ex" "abc123-missing" allOkEnv {} 404 rfl rfl
    (fun _ => rfl) (fun _ => rfl) (fun _ => rfl) rfl rfl rfl).2.2

/-- If no query within the deadline meets the terminal condition, the build
wait returns the `or "unknown"` of the last observed status. -/
theorem wait_build_aux_no_terminal (q : Nat → Except Unit (Option String)) :
    ∀ fuel i last, (∀ j, j < fuel → notTerm (q (i + j)) = true) →
    wait_build_aux q i fuel last = orUnknown (lastStatusSeen q i fuel last) := by
  intro fuel
  induction fuel with
  | zero => intro i last _; rfl
  | succ n ih =>
    intro i last h
    have h0 : notTerm (q i) = true := by
      have := h 0 (Nat.succ_pos n)
      simpa using this
    rcases hq : q i with u | st
    · simp only [wait_build_aux, lastStatusSeen, hq]
      exact ih (i + 1) last fun j hj => by
        have hh := h (j + 1) (Nat.succ_lt_succ hj)
        have he : i + (j + 1) = i + 1 + j := by omega
        rwa [he] at hh
    · rcases st with _ | s
      · simp only [wait_build_aux, lastStatusSeen, hq]
        exact ih (i + 1) none fun j hj => by
          have hh := h (j + 1) (Nat.succ_lt_succ hj)
          have he : i + (j + 1) = i + 1 + j := by omega
          rwa [he] at hh
      · have hs : ¬(s = "built" ∨ s = "errored") := by
          rw [hq] at h0
          simpa [notTerm] using h0
        simp only [wait_build_aux, lastStatusSeen, hq, if_neg hs]
        exact ih (i + 1) (some s) fun j hj => by
          have hh := h (j + 1) (Nat.succ_lt_succ hj)
          have he : i + (j + 1) = i + 1 + j := by omega
          rwa [he] at hh

/-- Errors before a terminal query within the deadline are swallowed: the
build wait still returns the terminal status. -/
theorem wait_build_aux_hits (q : Nat → Except Unit (Option String)) :
    ∀ j fuel i last, j < fuel → (∀ j', j' < j → q (i + j') = .error ()) →
    q (i + j) = .ok (some "built") → wait_build_aux q i fuel last = "built" := by
  intro j
  induction j with
  | zero =>
    intro fuel i last hlt herr hq
    rcases fuel with _ | n
    · omega
    · simp only [Nat.add_zero] at hq
      simp [wait_build_aux, hq]
  | succ m ih =>
    intro fuel i last hlt herr hq
    rcases fuel with _ | n
    · omega
    · have h0 : q i = .error () := by
        have := herr 0 (Nat.succ_pos m)
        simpa using this
      simp only [wait_build_aux, h0]
      exact ih n (i + 1) last (by omega)
        (fun j' hj' => by
          have hh := herr (j' + 1) (Nat.succ_lt_succ hj')
          have he : i + (j' + 1) = i + 1 + j' := by omega
          rwa [he] at hh)
        (by
          have he : i + (m + 1) = i + 1 + m := by omega
          rwa [he] at hq)

/-- If no query within the deadline returns 200, the URL wait returns
`false`. -/
theorem wait_url_aux_all_fail (q : Nat → Except Unit Nat) :
    ∀ fuel i, (∀ j, j < fuel → isOk200 (q (i + j)) = false) →
    wait_url_aux q i fuel = false := by
  intro fuel
  induction fuel with
  | zero => intro i _; rfl
  | succ n ih =>
    intro i h
    have h0 : isOk200 (q i) = false := by
      have := h 0 (Nat.succ_pos n)
      simpa using this
    rcases hq : q i with u | c
    · simp only [wait_url_aux, hq]
      exact ih (i + 1) fun j hj => by
        have hh := h (j + 1) (Nat.succ_lt_succ hj)
        have he : i + (j + 1) = i + 1 + j := by omega
        rwa [he] at hh
    · have hc : ¬(c = 200) := by
        rw [hq] at h0
        simpa [isOk200] using h0
      simp only [wait_url_aux, hq, if_neg hc]
      exact ih (i + 1) fun j hj => by
        have hh := h (j + 1) (Nat.succ_lt_succ hj)
        have he : i + (j + 1) = i + 1 + j := by omega
        rwa [he] at hh

/-- Errors before a 200 within the deadline are swallowed: the URL wait
still returns `true`. -/
theorem wait_url_aux_hits (q : Nat → Except Unit Nat) :
    ∀ j fuel i, j < fuel → (∀ j', j' < j → q (i + j') = .error ()) →
    q (i + j) = .ok 200 → wait_url_aux q i fuel = true := by
  intro j
  induction j with
  | zero =>
    intro fuel i hlt herr hq
    rcases fuel with _ | n
    · omega
    · simp only [Nat.add_zero] at hq
      simp [wait_url_aux, hq]
  | succ m ih =>
    intro fuel i hlt herr hq
    rcases fuel with _ | n
    · omega
    · have h0 : q i = .error () := by
        have := herr 0 (Nat.succ_pos m)
        simpa using this
      simp only [wait_url_aux, h0]
      exact ih n (i + 1) (by omega)
        (fun j' hj' => by
          have hh := herr (j' + 1) (Nat.succ_lt_succ hj')
          have he : i + (j' + 1) = i + 1 + j' := by omega
          rwa [he] at hh)
        (by
          have he : i + (m + 1) = i + 1 + m := by omega
          rwa [he] at hq)

/-- Claim C6 (counterexample): a stream on which the terminal condition is
never met makes the build wait return the last observed status — here
`"building"` — not the sentinel `"unknown"`. -/
theorem build_wait_returns_last_status :
    wait_for_pages_build 3 3 (fun _ => .ok (some "building")) = "building" ∧
    (∀ j, j < iterCount 3 3 →
      notTerm ((fun _ => (Except.ok (some "building") : Except Unit (Option String))) j) = true) ∧
    ("building" : String) ≠ "unknown" := by
  decide

/-- Claim C6 (amended): neither wait ever throws (both are total functions of
the query stream); transient query errors are swallowed without shortening
the deadline, so an error before a terminal answer within the
`⌈max/poll⌉`-query budget still yields that answer; and when the deadline
passes without the terminal condition the URL wait returns `false` while the
build wait returns the last observed status through `or "unknown"` —
`"unknown"` itself only when no truthy status was ever observed. -/
theorem wait_loops_behavior (maxB pollB maxU pollU : Nat)
    (qB : Nat → Except Unit (Option String)) (qU : Nat → Except Unit Nat) :
    ((∀ j, j < iterCount maxB pollB → notTerm (qB j) = true) →
      wait_for_pages_build maxB pollB qB =
        orUnknown (lastStatusSeen qB 0 (iterCount maxB pollB) none)) ∧
    ((∀ j, j < iterCount maxU pollU → isOk200 (qU j) = false) →
      wait_for_url_200 maxU pollU qU = false) ∧
    (∀ j, j < iterCount maxB pollB → (∀ i, i < j → qB i = .error ()) →
      qB j = .ok (some "built") → wait_for_pages_build maxB pollB qB = "built") ∧
    (∀ j, j < iterCount maxU pollU → (∀ i, i < j → qU i = .error ()) →
      qU j = .ok 200 → wait_for_url_200 maxU pollU qU = true) := by
  refine ⟨?_, ?_, ?_, ?_⟩
  · intro h
    exact wait_build_aux_no_terminal qB (iterCount maxB pollB) 0 none
      (fun j hj => by simpa using h j hj)
  · intro h
    exact wait_url_aux_all_fail qU (iterCount maxU pollU) 0
      (fun j hj => by simpa using h j hj)
  · intro j hj herr hq
    exact wait_build_aux_hits qB j (iterCount maxB pollB) 0 none hj
      (fun j' hj' => by simpa using herr j' hj') (by simpa using hq)
  · intro j hj herr hq
    exact wait_url_aux_hits qU j (iterCount maxU pollU) 0 hj
      (fun j' hj' => by simpa using herr j' hj') (by simpa using hq)

/-- Witness for `wait_loops_behavior`: an error on the first poll neither
aborts the loop nor shortens it. -/
theorem wait_loops_behavior_witness :
    (∀ j, j < iterCount 6 3 → notTerm (wStreamB j) = true) ∧
    wait_for_pages_build 6 3 wStreamB =
      orUnknown (lastStatusSeen wStreamB 0 (iterCount 6 3) none) ∧
    wait_for_url_200 6 3 wStreamU = true :=
  ⟨by decide,
   (wait_loops_behavior 6 3 6 3 wStreamB wStreamU).1 (by decide),
   (wait_loops_behavior 6 3 6 3 wStreamB wStreamU).2.2.2 1 (by decide)
     (fun i hi => by
        interval_cases i
        · rfl)
     (by decide)⟩

/-- Claim C3: under a valid identifier and the stored-record consistency
every reachable record satisfies, a run is spawned iff the record is absent
or terminal with a non-null error, and the spawned run starts from the record
reset by `queuedUpd`. -/
theorem start_spawn_policy (arg : Option String) (store : Option StatusRec)
    (hvalid : valid_uuid (pyStrip (arg.getD "")) = true)
    (hcons : recordConsistent store) :
    ((∃ r, start arg store = .spawn r) ↔
      (store = none ∨ ∃ r, store = some r ∧ r.done = some true ∧ r.error ≠ none)) ∧
    (∀ rec, start arg store = .spawn rec →
      rec.step = some 0 ∧ rec.done = some false ∧ rec.error = none ∧
      rec.total = some total_steps) := by
  have hne : ¬(pyStrip (arg.getD "") = "") := by
    intro hh
    rw [hh] at hvalid
    exact absurd hvalid (by decide)
  have hcond : ¬(pyStrip (arg.getD "") = "" ∨ valid_uuid (pyStrip (arg.getD "")) = false) := by
    rintro (hh | hh)
    · exact hne hh
    · rw [hvalid] at hh
      cases hh
  rcases store with _ | r
  · have hstart : start arg none = .spawn (applyUpd {} queuedUpd) := by
      simp [start, hcond, startSpawns]
    constructor
    · constructor
      · intro _
        exact Or.inl rfl
      · intro _
        exact ⟨_, hstart⟩
    · intro rec hrec
      rw [hstart] at hrec
      injection hrec with hrec'
      rw [← hrec']
      exact ⟨rfl, rfl, rfl, rfl⟩
  · by_cases hb : startSpawns (some r) = true
    · have hb' : r.done.getD false = true ∧ urlFalsy r.pages_url = true := by
        have hh := hb
        simp only [startSpawns, Bool.and_eq_true] at hh
        exact hh
      have hdone : r.done = some true := by
        rcases hd : r.done with _ | b
        · rw [hd] at hb'
          simp at hb'
        · rw [hd] at hb'
          simp at hb'
          rw [hb'.1]
      have herr : r.error ≠ none := (hcons hdone).mp hb'.2
      have hstart : start arg (some r) = .spawn (applyUpd r queuedUpd) := by
        simp [start, hcond, hb]
      constructor
      · constructor
        · intro _
          exact Or.inr ⟨r, rfl, hdone, herr⟩
        · intro _
          exact ⟨_, hstart⟩
      · intro rec hrec
        rw [hstart] at hrec
        injection hrec with hrec'
        rw [← hrec']
        exact ⟨rfl, rfl, rfl, rfl⟩
    · have hbf : startSpawns (some r) = false := by
        rcases hsb : startSpawns (some r) with _ | _
        · rfl
        · exact absurd hsb hb
      have hstart : start arg (some r) = .noSpawn := by
        simp [start, hcond, hbf]
      constructor
      · constructor
        · rintro ⟨rec, hrec⟩
          rw [hstart] at hrec
          cases hrec
        · rintro (hh | ⟨r', hr', hdone', herr'⟩)
          · cases hh
          · injection hr' with hr''
            subst hr''
            exfalso
            have hurl' : urlFalsy r.pages_url = true := (hcons hdone').mpr herr'
            have hsp : startSpawns (some r) = true := by
              simp [startSpawns, hdone', hurl']
            rw [hbf] at hsp
            cases hsp
      · intro rec hrec
        rw [hstart] at hrec
        cases hrec

/-- Witness for `start_spawn_policy`: a retry after a failed terminal record
spawns a run with the reset record. -/
theorem start_spawn_policy_witness :
    valid_uuid (pyStrip ((some "0123456789abcdef").getD "")) = true ∧
    (∃ r, start (some "0123456789abcdef") (some failedRec) = .spawn r) :=
  ⟨by decide,
   ((start_spawn_policy (some "0123456789abcdef") (some failedRec) (by decide)
      (fun hd => by simp [urlFalsy, failedRec])).1).mpr
     (Or.inr ⟨failedRec, rfl, rfl, by simp [failedRec]⟩)⟩

/-- The generate/compile loop publishes the first generate stage before its
first collaborator call, whatever that call returns. -/
theorem genCompileLoop_head (env : Env) (st : Nat) (s : Nat) (rest : List Nat) :
    ∃ tl, (genCompileLoop env st (s :: rest)).1 =
      .setStatus (stageStepUpd ("generate_s" ++ toString s) (st + 1)) :: tl := by
  rcases hg : env.genRes s with e | u
  · exact ⟨[.callGenerate s], by simp [genCompileLoop, hg, stageStepUpd]⟩
  · rcases hc : env.compileRes s with e | u2
    · exact ⟨[.callGenerate s,
        .setStatus (stageStepUpd ("compile_s" ++ toString s) (st + 2)), .callCompile s],
        by simp [genCompileLoop, hg, hc, stageStepUpd]⟩
    · exact ⟨[.callGenerate s,
        .setStatus (stageStepUpd ("compile_s" ++ toString s) (st + 2)), .callCompile s] ++
          (genCompileLoop env (st + 2) rest).1,
        by simp [genCompileLoop, hg, hc, stageStepUpd]⟩

/-- Claim C8: the idempotency oracle reports "present" exactly on a 200
read; any other status (404, 503, 429, ...) silently reads as "absent"
without raising, and the run then proceeds into generation — its trace
continues past the existence check into the `generate_s1` stage. -/
theorem exists_check_only_200 (base uuid : String) (env : Env) (code : Nat)
    (hex : env.existsResp = .ok code) (hcode : code ≠ 200) :
    (∀ c, uuid_folder_exists c = true ↔ c = 200) ∧
    uuid_folder_exists code = false ∧
    (build_and_publish base uuid env).1.take 3 =
      [.setStatus startingUpd, .callExists,
       .setStatus (stageStepUpd ("generate_s" ++ toString 1) 1)] := by
  have hxf : uuid_folder_exists code = false := by
    simp [uuid_folder_exists, hcode]
  refine ⟨fun c => by simp [uuid_folder_exists], hxf, ?_⟩
  obtain ⟨tl, htl⟩ := genCompileLoop_head env 0 1 [2, 3, 4, 5]
  rcases bap_cases base uuid env with
      ⟨exc, hex', hbap⟩ | ⟨code', hex', hx', hbap⟩ |
      ⟨code', gevs, gstep, exc, hex', hx', hg, hbap⟩ |
      ⟨code', gevs, gstep, uevs, ustep, exc, hex', hx', hg, hu, hbap⟩ |
      ⟨code', gevs, gstep, uevs, ustep, exc, hex', hx', hg, hu, hui, hbap⟩ |
      ⟨code', gevs, gstep, uevs, ustep, exc, hex', hx', hg, hu, hui, htr, hbap⟩ |
      ⟨code', gevs, gstep, uevs, ustep, hex', hx', hg, hu, hui, htr, hbe, hbap⟩ |
      ⟨code', gevs, gstep, uevs, ustep, hex', hx', hg, hu, hui, htr, hbe, hbap⟩
  · rw [hex] at hex'
    cases hex'
  · rw [hex] at hex'
    injection hex' with hc'
    subst hc'
    rw [hxf] at hx'
    cases hx'
  all_goals
    have hgevs : gevs = .setStatus (stageStepUpd ("generate_s" ++ toString 1) 1) :: tl := by
      have hfst := congrArg (fun p => p.1) hg
      simp only at hfst
      rw [← hfst]
      simpa [SCENARIOS] using htl
  all_goals rw [hbap, hgevs]
  all_goals simp

/-- Witness for `exists_check_only_200`: a 503 read lets the run rebuild. -/
theorem exists_check_only_200_witness :
    uuid_folder_exists 503 = false ∧
    (build_and_publish "b" "u" env503).1.take 3 =
      [.setStatus startingUpd, .callExists,
       .setStatus (stageStepUpd ("generate_s" ++ toString 1) 1)] :=
  ⟨(exists_check_only_200 "b" "u" env503 503 rfl (by decide)).2.1,
   (exists_check_only_200 "b" "u" env503 503 rfl (by decide)).2.2⟩

/-- Claim C9: a 200 pre-read with an unparsable body makes `upload_file`
fall back to an absent token — the write's payload carries no `sha`, i.e. it
is a create — and the upload raises exactly when the write's status is
neither 200 nor 201. -/
theorem upload_unparsable_body_create (r : GhResp) (putStatus : Nat)
    (h200 : r.status_code = 200) (hparse : r.jsonSha = .error ()) :
    (upload_file r putStatus).1 = none ∧
    (∀ r' put', (upload_file r' put').2 = .ok () ↔ (put' = 200 ∨ put' = 201)) ∧
    ((∃ e, (upload_file r putStatus).2 = .error e) ↔ ¬(putStatus = 200 ∨ putStatus = 201)) := by
  refine ⟨?_, ?_, ?_⟩
  · simp [upload_file, upload_sha, putPayloadSha, h200, hparse]
  · intro r' put'
    constructor
    · intro hh
      by_contra hc
      simp [upload_file, gh_put, hc] at hh
    · intro hh
      simp [upload_file, gh_put, hh]
  · constructor
    · rintro ⟨e, he⟩
      intro hc
      simp [upload_file, gh_put, hc] at he
    · intro hc
      exact ⟨"GitHub upload failed: " ++ toString putStatus,
        by simp [upload_file, gh_put, hc]⟩

/-- Witness for `upload_unparsable_body_create` at a concrete response. -/
theorem upload_unparsable_body_create_witness :
    (upload_file ⟨200, .error ()⟩ 201).1 = none ∧
    ((upload_file ⟨200, .error ()⟩ 201).2 = .ok () ↔ ((201 : Nat) = 200 ∨ (201 : Nat) = 201)) :=
  ⟨(upload_unparsable_body_create ⟨200, .error ()⟩ 201 rfl rfl).1,
   (upload_unparsable_body_create ⟨200, .error ()⟩ 201 rfl rfl).2.1 ⟨200, .error ()⟩ 201⟩

/-- Claim C10 (counterexample): `" "` is a non-empty `uuid` string, yet
`/generate` strips it and answers 400, not a 302 redirect. -/
theorem legacy_whitespace_400 :
    (" " : String) ≠ "" ∧
    generate_legacy (some " ") = .badRequest "Missing uuid" := by
  decide

/-- Claim C10 (amended): `/generate` applies no pattern validation — any
`uuid` whose whitespace-stripped form is non-empty, including identifiers
failing `/start`'s pattern, gets an unencoded 302 to `/start` carrying the
stripped identifier — and it answers 400 exactly when the stripped `uuid` is
empty (missing or whitespace-only). -/
theorem legacy_redirect_behavior (arg : Option String) :
    (pyStrip (arg.getD "") ≠ "" →
      generate_legacy arg = .redirect 302 ("/start?uuid=" ++ pyStrip (arg.getD ""))) ∧
    (pyStrip (arg.getD "") = "" → generate_legacy arg = .badRequest "Missing uuid") ∧
    (valid_uuid "zzzz" = false ∧
      generate_legacy (some "zzzz") = .redirect 302 "/start?uuid=zzzz") := by
  refine ⟨?_, ?_, by decide, by decide⟩
  · intro hh
    simp [generate_legacy, hh]
  · intro hh
    simp [generate_legacy, hh]

/-- Witness for `legacy_redirect_behavior`: an identifier that fails
`/start`'s pattern is still redirected. -/
theorem legacy_redirect_behavior_witness :
    pyStrip ((some "zzzz").getD "") ≠ "" ∧
    generate_legacy (some "zzzz") =
      .redirect 302 ("/start?uuid=" ++ pyStrip ((some "zzzz").getD "")) :=
  ⟨by decide, (legacy_redirect_behavior (some "zzzz")).1 (by decide)⟩

end HandoutApp
